import Mathlib

/-!
Verification of the SecurePayToPrint backend core: the printer resource
ledger implemented by the POST /upload handler (src/uploadHandler.js), and
the session lifecycle state machine implemented across the two merge
variants of src/server.js.

The JavaScript is embedded shallowly: every handler becomes a pure Lean
function from an explicit state (printer table plus audit log, or the
global server state of sessions, files and flags) to a response paired
with the successor state.  JS numbers used by the ledger are modelled as
rationals; page counts and timestamps on the server side are integers.
-/

namespace PayToPrint

/-! ## Resource ledger: data model (PrinterStatus and PrintLogs tables) -/

/-- A row of the PrinterStatus table (database.js): per-printer consumable
levels.  Columns are declared INTEGER but the handler writes back
fractional ink levels, so all levels are rationals here. -/
structure Printer where
  printer_id : String
  black_ink : ℚ
  color_ink : ℚ
  paper : ℚ
deriving DecidableEq, Repr

/-- A row of the PrintLogs audit table appended by the /upload handler. -/
structure LogRec where
  token : String
  phone : String
  printer_id : String
  pages : ℚ
  print_type : Option String
  amount : ℚ
deriving DecidableEq, Repr

/-- The ledger state: the PrinterStatus table and the append-only
PrintLogs audit trail. -/
structure LedgerState where
  printers : List Printer
  printLogs : List LogRec
deriving DecidableEq, Repr

/-- SELECT * FROM PrinterStatus WHERE printer_id = ? (first matching row). -/
def findPrinter (tbl : List Printer) (pid : String) : Option Printer :=
  tbl.find? (fun p => p.printer_id == pid)

/-- JS Math.max on two rationals, written so the kernel can evaluate it. -/
def jmax (a b : ℚ) : ℚ := if a ≤ b then b else a

/-- JS Math.min on two rationals, written so the kernel can evaluate it. -/
def jmin (a b : ℚ) : ℚ := if a ≤ b then a else b

theorem jmax_eq_max (a b : ℚ) : jmax a b = max a b := by
  rw [jmax, max_def]

theorem jmin_eq_min (a b : ℚ) : jmin a b = min a b := by
  rw [jmin, min_def]

/-- JS Math.max on two integers, written so the kernel can evaluate it. -/
def imax (a b : Int) : Int := if a ≤ b then b else a

theorem imax_eq_max (a b : Int) : imax a b = max a b := by
  rw [imax, max_def]

/-- Ink cost of printing `p` pages, from uploadHandler.js lines 160-169:
monochrome (print_type exactly "bw") uses 0.3 black per page and no
color; every other print_type uses 0.2 black and 0.4 color per page. -/
def inkUsage (print_type : Option String) (p : ℚ) : ℚ × ℚ :=
  if print_type == some "bw" then (p * (3 / 10), 0)
  else (p * (2 / 10), p * (4 / 10))

/-- Pages actually printed, uploadHandler.js lines 156-158: an admin
prints the full request; otherwise the request is truncated to the
available paper. -/
def pagesAllowed (admin : Bool) (totalPages availablePaper : ℚ) : ℚ :=
  if admin then totalPages else jmin totalPages availablePaper

/-- The new printer row written back by the UPDATE, uploadHandler.js
lines 171-180: each level is reduced by its usage and clamped at zero. -/
def applyDeduction (printer : Printer) (print_type : Option String) (p : ℚ) : Printer :=
  { printer with
      black_ink := jmax 0 (printer.black_ink - (inkUsage print_type p).1)
      color_ink := jmax 0 (printer.color_ink - (inkUsage print_type p).2)
      paper := jmax 0 (printer.paper - p) }

/-- Outcome of POST /upload. -/
inductive UploadRes where
  | userLimitError
  | printerNotFound
  | warning (available shortfall : ℚ)
  | success (printedPages remainingPaper remainingBlackInk remainingColorInk : ℚ)
deriving DecidableEq, Repr

/-- Which branch of the handler answered, ignoring payload fields. -/
def UploadRes.tag : UploadRes → Nat
  | .userLimitError => 0
  | .printerNotFound => 1
  | .warning _ _ => 2
  | .success _ _ _ _ => 3

/-- POST /upload, uploadHandler.js lines 118-224.  `totalPages` is the
already-parsed `Number(pages)` from the request body, `print_type` is the
body field (`none` when absent), `admin` is the parsed isAdmin flag and
`force` the body's force flag.  Non-admins above 20 pages are rejected;
an unknown printer is an error; a non-forced non-admin short on paper
gets a warning and no deduction; otherwise the printer row is updated
with clamped levels and a PrintLogs record is appended. -/
def upload (st : LedgerState) (pid : String) (totalPages : ℚ)
    (print_type : Option String) (admin force : Bool)
    (token phone : String) (amount : ℚ) : UploadRes × LedgerState :=
  if admin = false ∧ 20 < totalPages then (.userLimitError, st)
  else
    match findPrinter st.printers pid with
    | none => (.printerNotFound, st)
    | some printer =>
      if admin = false ∧ printer.paper < totalPages ∧ force = false then
        (.warning printer.paper (totalPages - printer.paper), st)
      else
        (.success (pagesAllowed admin totalPages printer.paper)
           (applyDeduction printer print_type (pagesAllowed admin totalPages printer.paper)).paper
           (applyDeduction printer print_type (pagesAllowed admin totalPages printer.paper)).black_ink
           (applyDeduction printer print_type (pagesAllowed admin totalPages printer.paper)).color_ink,
         { printers := st.printers.map (fun q =>
             if q.printer_id == pid then
               { q with
                   black_ink := (applyDeduction printer print_type
                     (pagesAllowed admin totalPages printer.paper)).black_ink
                   color_ink := (applyDeduction printer print_type
                     (pagesAllowed admin totalPages printer.paper)).color_ink
                   paper := (applyDeduction printer print_type
                     (pagesAllowed admin totalPages printer.paper)).paper }
             else q)
           printLogs := st.printLogs ++
             [{ token := token, phone := phone, printer_id := pid
                pages := pagesAllowed admin totalPages printer.paper
                print_type := print_type, amount := amount }] })

/-- One /upload request, for iterating deduction sequences. -/
structure UploadReq where
  pid : String
  totalPages : ℚ
  print_type : Option String
  admin : Bool
  force : Bool
  token : String
  phone : String
  amount : ℚ
deriving DecidableEq, Repr

/-- Run a sequence of /upload requests, keeping only the state. -/
def runUploads (st : LedgerState) (reqs : List UploadReq) : LedgerState :=
  reqs.foldl (fun s r =>
    (upload s r.pid r.totalPages r.print_type r.admin r.force r.token r.phone r.amount).2) st

/-- All consumable levels of every printer row are nonnegative. -/
def LedgerNonneg (st : LedgerState) : Prop :=
  ∀ p ∈ st.printers, 0 ≤ p.paper ∧ 0 ≤ p.black_ink ∧ 0 ≤ p.color_ink

/-- The default printer rows installed by database.js. -/
def initialPrinters : List Printer :=
  [ { printer_id := "SOS", black_ink := 100, color_ink := 100, paper := 500 }
  , { printer_id := "SOT", black_ink := 100, color_ink := 100, paper := 500 }
  , { printer_id := "ANVI", black_ink := 100, color_ink := 100, paper := 500 } ]

def printerSOS : Printer :=
  { printer_id := "SOS", black_ink := 100, color_ink := 100, paper := 500 }

def ledger0 : LedgerState := { printers := initialPrinters, printLogs := [] }

/-! ## Ledger helper lemmas -/

theorem jmax_zero_nonneg (x : ℚ) : 0 ≤ jmax 0 x := by
  rw [jmax_eq_max]; exact le_max_left 0 x

theorem jmax_zero_sub_le {a : ℚ} (b : ℚ) (ha : 0 ≤ a) (hb : 0 ≤ b) :
    jmax 0 (a - b) ≤ a := by
  rw [jmax_eq_max]; exact max_le ha (by linarith)

theorem inkUsage_fst_nonneg (pt : Option String) {p : ℚ} (hp : 0 ≤ p) :
    0 ≤ (inkUsage pt p).1 := by
  rw [inkUsage]
  split
  · exact mul_nonneg hp (by norm_num)
  · exact mul_nonneg hp (by norm_num)

theorem inkUsage_snd_nonneg (pt : Option String) {p : ℚ} (hp : 0 ≤ p) :
    0 ≤ (inkUsage pt p).2 := by
  rw [inkUsage]
  split
  · exact le_refl 0
  · exact mul_nonneg hp (by norm_num)

theorem pagesAllowed_nonneg (admin : Bool) {tp paper : ℚ}
    (ht : 0 ≤ tp) (hpap : 0 ≤ paper) : 0 ≤ pagesAllowed admin tp paper := by
  rw [pagesAllowed]
  cases admin with
  | false => simp only [Bool.false_eq_true, if_false, jmin_eq_min]; exact le_min ht hpap
  | true => simpa

theorem mem_of_findPrinter {tbl : List Printer} {pid : String} {q : Printer}
    (h : findPrinter tbl pid = some q) : q ∈ tbl :=
  List.mem_of_find?_eq_some h

/-- The successor state of one upload keeps every consumable nonnegative,
provided the previous state did. -/
theorem upload_preserves_nonneg (st : LedgerState) (pid : String) (tp : ℚ)
    (pt : Option String) (admin force : Bool) (tok ph : String) (amt : ℚ)
    (h : LedgerNonneg st) :
    LedgerNonneg (upload st pid tp pt admin force tok ph amt).2 := by
  rw [upload]
  split
  · exact h
  · split
    · exact h
    · split
      · exact h
      · intro q hq
        simp only [List.mem_map] at hq
        obtain ⟨q0, hq0, hq0e⟩ := hq
        by_cases hid : (q0.printer_id == pid) = true
        · simp only [hid, if_true] at hq0e
          subst hq0e
          exact ⟨jmax_zero_nonneg _, jmax_zero_nonneg _, jmax_zero_nonneg _⟩
        · simp only [hid, if_false] at hq0e
          subst hq0e
          exact h q0 hq0

/-- Nonnegativity of every consumable is preserved by any sequence of
upload requests. -/
theorem runUploads_nonneg (reqs : List UploadReq) (st : LedgerState)
    (h : LedgerNonneg st) : LedgerNonneg (runUploads st reqs) := by
  induction reqs generalizing st with
  | nil => exact h
  | cons r rs ih =>
    exact ih _ (upload_preserves_nonneg st r.pid r.totalPages r.print_type
      r.admin r.force r.token r.phone r.amount h)

/-- The printed-pages payload of an upload response, when it has one. -/
def UploadRes.printedPages? : UploadRes → Option ℚ
  | .success p _ _ _ => some p
  | _ => none

/-- The branch of /upload taken does not depend on print_type: the
guards only read admin, pages, force and the paper level. -/
theorem upload_tag_indep (st : LedgerState) (pid : String) (tp : ℚ)
    (pt pt2 : Option String) (admin force : Bool) (tok ph : String) (amt : ℚ) :
    (upload st pid tp pt admin force tok ph amt).1.tag =
      (upload st pid tp pt2 admin force tok ph amt).1.tag := by
  simp only [upload]
  by_cases h1 : admin = false ∧ 20 < tp
  · rw [if_pos h1, if_pos h1]
  · rw [if_neg h1, if_neg h1]
    cases hf : findPrinter st.printers pid with
    | none => simp only [hf]
    | some printer =>
      simp only [hf]
      by_cases h2 : admin = false ∧ printer.paper < tp ∧ force = false
      · rw [if_pos h2, if_pos h2]
      · rw [if_neg h2, if_neg h2]
        rfl

/-! ## Claims C1, C2, C3, C10: the /upload resource ledger -/

/-- Claim C1, counterexample: the claim is false as stated.  A
non-privileged, non-forced request for 25 pages on printer "SOS"
holding 500 sheets (ample paper, so the claim demands that
min(25, 500) = 25 pages be printed) is instead rejected outright by the
20-page user cap and prints nothing. -/
theorem C1_counterexample :
    findPrinter ledger0.printers "SOS" = some printerSOS ∧
    (25 : ℚ) ≤ printerSOS.paper ∧
    (upload ledger0 "SOS" 25 none false false "t" "9" 0).1 = .userLimitError ∧
    (upload ledger0 "SOS" 25 none false false "t" "9" 0).1.printedPages? = none := by
  refine ⟨rfl, by norm_num [printerSOS], ?_, ?_⟩
  · norm_num [upload]
  · norm_num [upload, UploadRes.printedPages?]

/-- Claim C1 (amended): for every upload request to an existing printer,
provided a non-privileged request stays within the 20-page user cap
(requests above it are rejected before the ledger is consulted):
a privileged (admin) request always succeeds and prints exactly the
requested page count regardless of paper stock; a non-privileged
request that is not forced and short on paper gets a warning carrying
the available count and the shortfall and performs no deduction; any
other non-privileged request prints min(requested, paper_count). -/
theorem C1_feasible_pages (st : LedgerState) (pid : String) (tp : ℚ)
    (pt : Option String) (force : Bool) (tok ph : String) (amt : ℚ)
    (printer : Printer)
    (hfind : findPrinter st.printers pid = some printer) :
    (upload st pid tp pt true force tok ph amt).1.printedPages? = some tp ∧
    (tp ≤ 20 → printer.paper < tp → force = false →
      upload st pid tp pt false force tok ph amt =
        (.warning printer.paper (tp - printer.paper), st)) ∧
    (tp ≤ 20 → force = true ∨ tp ≤ printer.paper →
      (upload st pid tp pt false force tok ph amt).1.printedPages? =
        some (min tp printer.paper)) := by
  refine ⟨?_, ?_, ?_⟩
  · simp only [upload, hfind]
    rw [if_neg (by simp), if_neg (by simp)]
    simp [UploadRes.printedPages?, pagesAllowed]
  · intro h20 hlt hforce
    subst hforce
    simp only [upload, hfind]
    rw [if_neg (fun hc => absurd hc.2 (not_lt.2 h20)), if_pos ⟨trivial, hlt, trivial⟩]
  · intro h20 hor
    simp only [upload, hfind]
    rw [if_neg (fun hc => absurd hc.2 (not_lt.2 h20)), if_neg ?hguard]
    case hguard =>
      rintro ⟨-, hlt, hforce⟩
      rcases hor with h | h
      · rw [h] at hforce; cases hforce
      · exact absurd hlt (not_lt.2 h)
    simp [UploadRes.printedPages?, pagesAllowed, jmin_eq_min]

/-- Claim C1 witness: the amended theorem evaluated on the initial
ledger, printer "SOS", a 10-page request. -/
theorem C1_feasible_pages_witness :
    (upload ledger0 "SOS" 10 none true false "t" "9" 0).1.printedPages? = some 10 ∧
    ((10 : ℚ) ≤ 20 → printerSOS.paper < 10 → false = false →
      upload ledger0 "SOS" 10 none false false "t" "9" 0 =
        (.warning printerSOS.paper (10 - printerSOS.paper), ledger0)) ∧
    ((10 : ℚ) ≤ 20 → false = true ∨ (10 : ℚ) ≤ printerSOS.paper →
      (upload ledger0 "SOS" 10 none false false "t" "9" 0).1.printedPages? =
        some (min 10 printerSOS.paper)) :=
  C1_feasible_pages ledger0 "SOS" 10 none false "t" "9" 0 printerSOS rfl

/-- Claim C2: every successful deduction of p pages on an existing
printer consumes p * 0.3 black ink and no color ink in monochrome mode,
p * 0.2 black and p * 0.4 color otherwise; each written-back level
(black, color, and paper reduced by p) is clamped at zero; and a
PrintLogs audit record for p pages is appended. -/
theorem C2_deduction_and_audit (st : LedgerState) (pid : String) (tp : ℚ)
    (pt : Option String) (admin force : Bool) (tok ph : String) (amt : ℚ)
    (p rp rb rc : ℚ) (printer : Printer)
    (hfind : findPrinter st.printers pid = some printer)
    (hcolor : 0 ≤ printer.color_ink)
    (hres : (upload st pid tp pt admin force tok ph amt).1 = .success p rp rb rc) :
    (pt = some "bw" →
      rb = max 0 (printer.black_ink - p * (3 / 10)) ∧ rc = printer.color_ink) ∧
    (pt ≠ some "bw" →
      rb = max 0 (printer.black_ink - p * (2 / 10)) ∧
      rc = max 0 (printer.color_ink - p * (4 / 10))) ∧
    rp = max 0 (printer.paper - p) ∧
    (upload st pid tp pt admin force tok ph amt).2.printLogs =
      st.printLogs ++ [{ token := tok, phone := ph, printer_id := pid,
                         pages := p, print_type := pt, amount := amt }] := by
  simp only [upload, hfind] at hres ⊢
  by_cases h1 : admin = false ∧ 20 < tp
  · rw [if_pos h1] at hres; exact absurd hres (by simp)
  · rw [if_neg h1] at hres ⊢
    by_cases h2 : admin = false ∧ printer.paper < tp ∧ force = false
    · rw [if_pos h2] at hres; exact absurd hres (by simp)
    · rw [if_neg h2] at hres ⊢
      rw [show ((UploadRes.success (pagesAllowed admin tp printer.paper)
          (applyDeduction printer pt (pagesAllowed admin tp printer.paper)).paper
          (applyDeduction printer pt (pagesAllowed admin tp printer.paper)).black_ink
          (applyDeduction printer pt (pagesAllowed admin tp printer.paper)).color_ink,
          ({ printers := _, printLogs := _ } : LedgerState)).1 =
        UploadRes.success (pagesAllowed admin tp printer.paper)
          (applyDeduction printer pt (pagesAllowed admin tp printer.paper)).paper
          (applyDeduction printer pt (pagesAllowed admin tp printer.paper)).black_ink
          (applyDeduction printer pt (pagesAllowed admin tp printer.paper)).color_ink)
        from rfl, UploadRes.success.injEq] at hres
      obtain ⟨hp, hrp, hrb, hrc⟩ := hres
      subst hp
      refine ⟨?_, ?_, ?_, ?_⟩
      · intro hbw
        subst hbw
        refine ⟨?_, ?_⟩
        · rw [← hrb]; simp [applyDeduction, inkUsage, jmax_eq_max]
        · rw [← hrc]
          simp [applyDeduction, inkUsage, jmax_eq_max, max_eq_right hcolor]
      · intro hne
        refine ⟨?_, ?_⟩
        · rw [← hrb]; simp [applyDeduction, inkUsage, hne, jmax_eq_max]
        · rw [← hrc]; simp [applyDeduction, inkUsage, hne, jmax_eq_max]
      · rw [← hrp]; simp [applyDeduction, jmax_eq_max]
      · rfl

/-- Claim C2 witness: a concrete monochrome deduction of 10 pages on the
initial "SOS" printer (black 100 → 97, color unchanged, paper 500 → 490,
one audit record appended). -/
theorem C2_deduction_and_audit_witness :
    (some "bw" = some "bw" →
      (97 : ℚ) = max 0 (printerSOS.black_ink - 10 * (3 / 10)) ∧
      (100 : ℚ) = printerSOS.color_ink) ∧
    (some "bw" ≠ some "bw" →
      (97 : ℚ) = max 0 (printerSOS.black_ink - 10 * (2 / 10)) ∧
      (100 : ℚ) = max 0 (printerSOS.color_ink - 10 * (4 / 10))) ∧
    (490 : ℚ) = max 0 (printerSOS.paper - 10) ∧
    (upload ledger0 "SOS" 10 (some "bw") false false "t" "9" 35).2.printLogs =
      ledger0.printLogs ++ [{ token := "t", phone := "9", printer_id := "SOS",
                              pages := 10, print_type := some "bw", amount := 35 }] :=
  C2_deduction_and_audit ledger0 "SOS" 10 (some "bw") false false "t" "9" 35
    10 490 97 100 printerSOS rfl (by norm_num [printerSOS])
    (by norm_num [upload, findPrinter, ledger0, initialPrinters, applyDeduction,
      inkUsage, pagesAllowed, jmin, jmax])

/-- Claim C3, counterexample: deduction is not monotonic non-increasing.
A request with a negative page count (pages = -5 passes every guard)
adds paper and black ink: on the initial "SOS" printer (paper 500,
black 100) the written-back levels are paper 505 and black 101.5. -/
theorem C3_counterexample :
    printerSOS.paper = 500 ∧
    findPrinter ledger0.printers "SOS" = some printerSOS ∧
    (upload ledger0 "SOS" (-5) (some "bw") false false "t" "9" 0).1 =
      .success (-5) 505 (203 / 2) 100 ∧
    ¬ (505 : ℚ) ≤ 500 := by
  refine ⟨rfl, rfl, ?_, by norm_num⟩
  norm_num [upload, findPrinter, ledger0, initialPrinters, applyDeduction,
    inkUsage, pagesAllowed, jmin, jmax]

/-- Claim C3 (amended): after any sequence of /upload deductions every
printer's paper, black ink and color ink remain nonnegative (each
write-back clamps at zero); and any single successful deduction whose
requested page count is nonnegative leaves every level of the target
printer at most its previous value.  (Unconditional monotonicity fails
for negative requested page counts, see C3_counterexample.) -/
theorem C3_nonneg_and_monotone (st : LedgerState) (reqs : List UploadReq)
    (pid : String) (tp : ℚ) (pt : Option String) (admin force : Bool)
    (tok ph : String) (amt : ℚ) (p rp rb rc : ℚ) (printer : Printer)
    (hnn : LedgerNonneg st)
    (hfind : findPrinter st.printers pid = some printer) :
    LedgerNonneg (runUploads st reqs) ∧
    ((upload st pid tp pt admin force tok ph amt).1 = .success p rp rb rc →
      0 ≤ tp →
      rp ≤ printer.paper ∧ rb ≤ printer.black_ink ∧ rc ≤ printer.color_ink) := by
  refine ⟨runUploads_nonneg reqs st hnn, ?_⟩
  intro hres htp
  obtain ⟨hpaper, hblack, hcolor⟩ := hnn printer (mem_of_findPrinter hfind)
  simp only [upload, hfind] at hres
  by_cases h1 : admin = false ∧ 20 < tp
  · rw [if_pos h1] at hres; exact absurd hres (by simp)
  · rw [if_neg h1] at hres
    by_cases h2 : admin = false ∧ printer.paper < tp ∧ force = false
    · rw [if_pos h2] at hres; exact absurd hres (by simp)
    · rw [if_neg h2] at hres
      have hres' : UploadRes.success (pagesAllowed admin tp printer.paper)
          (applyDeduction printer pt (pagesAllowed admin tp printer.paper)).paper
          (applyDeduction printer pt (pagesAllowed admin tp printer.paper)).black_ink
          (applyDeduction printer pt (pagesAllowed admin tp printer.paper)).color_ink =
          .success p rp rb rc := hres
      rw [UploadRes.success.injEq] at hres'
      obtain ⟨hp, hrp, hrb, hrc⟩ := hres'
      have hP : 0 ≤ pagesAllowed admin tp printer.paper :=
        pagesAllowed_nonneg admin htp hpaper
      refine ⟨?_, ?_, ?_⟩
      · rw [← hrp]
        exact jmax_zero_sub_le _ hpaper hP
      · rw [← hrb]
        exact jmax_zero_sub_le _ hblack (inkUsage_fst_nonneg pt hP)
      · rw [← hrc]
        exact jmax_zero_sub_le _ hcolor (inkUsage_snd_nonneg pt hP)

/-- Claim C3 witness: the amended theorem evaluated on the initial
ledger, a one-request sequence, and the concrete monochrome deduction of
10 pages on "SOS". -/
theorem C3_nonneg_and_monotone_witness :
    LedgerNonneg (runUploads ledger0
      [{ pid := "SOS", totalPages := 10, print_type := some "bw", admin := false,
         force := false, token := "t", phone := "9", amount := 35 }]) ∧
    ((upload ledger0 "SOS" 10 (some "bw") false false "t" "9" 35).1 =
        .success 10 490 97 100 →
      (0 : ℚ) ≤ 10 →
      (490 : ℚ) ≤ printerSOS.paper ∧ (97 : ℚ) ≤ printerSOS.black_ink ∧
        (100 : ℚ) ≤ printerSOS.color_ink) :=
  C3_nonneg_and_monotone ledger0
    [{ pid := "SOS", totalPages := 10, print_type := some "bw", admin := false,
       force := false, token := "t", phone := "9", amount := 35 }]
    "SOS" 10 (some "bw") false false "t" "9" 35 10 490 97 100 printerSOS
    (by intro q hq; fin_cases hq <;> norm_num [printerSOS]) rfl

/-- Claim C10: in /upload every print_type other than the exact string
"bw" — including a missing print_type — is charged at the color rates
(black = p * 0.2, color = p * 0.4), and the branch taken by the handler
never depends on print_type, so no print_type value is rejected. -/
theorem C10_color_rate_default (st : LedgerState) (pid : String) (tp : ℚ)
    (pt pt2 : Option String) (admin force : Bool) (tok ph : String) (amt : ℚ)
    (p rp rb rc : ℚ) (printer : Printer)
    (hpt : pt ≠ some "bw")
    (hfind : findPrinter st.printers pid = some printer)
    (hres : (upload st pid tp pt admin force tok ph amt).1 = .success p rp rb rc) :
    rb = max 0 (printer.black_ink - p * (2 / 10)) ∧
    rc = max 0 (printer.color_ink - p * (4 / 10)) ∧
    (upload st pid tp pt admin force tok ph amt).1.tag =
      (upload st pid tp pt2 admin force tok ph amt).1.tag := by
  refine ⟨?_, ?_, upload_tag_indep st pid tp pt pt2 admin force tok ph amt⟩ <;>
  · simp only [upload, hfind] at hres
    by_cases h1 : admin = false ∧ 20 < tp
    · rw [if_pos h1] at hres; exact absurd hres (by simp)
    · rw [if_neg h1] at hres
      by_cases h2 : admin = false ∧ printer.paper < tp ∧ force = false
      · rw [if_pos h2] at hres; exact absurd hres (by simp)
      · rw [if_neg h2] at hres
        have hres' : UploadRes.success (pagesAllowed admin tp printer.paper)
            (applyDeduction printer pt (pagesAllowed admin tp printer.paper)).paper
            (applyDeduction printer pt (pagesAllowed admin tp printer.paper)).black_ink
            (applyDeduction printer pt (pagesAllowed admin tp printer.paper)).color_ink =
            .success p rp rb rc := hres
        rw [UploadRes.success.injEq] at hres'
        obtain ⟨hp, hrp, hrb, hrc⟩ := hres'
        subst hp
        first
        | · rw [← hrb]; simp [applyDeduction, inkUsage, hpt, jmax_eq_max]
        | · rw [← hrc]; simp [applyDeduction, inkUsage, hpt, jmax_eq_max]

/-- Claim C10 witness: a request with no print_type at all is charged at
color rates (black 100 → 98, color 100 → 96) and takes the same branch
as an explicit "bw" request. -/
theorem C10_color_rate_default_witness :
    (98 : ℚ) = max 0 (printerSOS.black_ink - 10 * (2 / 10)) ∧
    (96 : ℚ) = max 0 (printerSOS.color_ink - 10 * (4 / 10)) ∧
    (upload ledger0 "SOS" 10 none false false "t" "9" 0).1.tag =
      (upload ledger0 "SOS" 10 (some "bw") false false "t" "9" 0).1.tag :=
  C10_color_rate_default ledger0 "SOS" 10 none (some "bw") false false "t" "9" 0
    10 490 98 96 printerSOS (by simp) rfl
    (by norm_num [upload, findPrinter, ledger0, initialPrinters, applyDeduction,
      inkUsage, pagesAllowed, jmin, jmax])

/-! ## Session store and server state machine (src/server.js)

The HEAD merge variant of server.js keeps three pieces of shared state:
an array `global.sessions` of session objects, a map `global.sessionsById`
from id to the same objects, and the flags machineEnabled / printerBusy.
JS objects live on a heap and the array and map alias them, so sessions
are stored in an explicit heap (a list indexed by allocation order), the
array holds heap references and the map holds (id, reference) pairs.
The file system is a list of existing file paths. -/

/-- One session object, server.js HEAD variant lines 186-246.  `amount`,
`copies` and `printType` are absent (undefined) until confirm-payment or
start-print sets them. -/
structure Session where
  sessionId : String
  fileName : String
  filePath : String
  pages : Int
  paymentStatus : String
  printStatus : String
  createdAt : Int
  amount : Option Int
  copies : Option Int
  printType : Option String
deriving DecidableEq, Repr

/-- A PrintLogs row inserted by the timed completion callback,
server.js lines 356-369. -/
structure SrvLog where
  token : String
  phone : String
  printer_id : String
  pages : Int
  print_type : String
  amount : Int
  time : String
deriving DecidableEq, Repr

/-- The global mutable state of the HEAD server variant. -/
structure SrvState where
  machineEnabled : Bool
  printerBusy : Bool
  heap : List Session
  sessionsArr : List Nat
  sessionsById : List (String × Nat)
  files : List String
  printLogs : List SrvLog
deriving DecidableEq, Repr

/-- JS property write `sessionsById[id] = ref`: any previous binding for
`id` is replaced. -/
def mapInsert (id : String) (ref : Nat) (m : List (String × Nat)) :
    List (String × Nat) :=
  (id, ref) :: m.filter (fun q => q.1 != id)

/-- `global.sessionsById[sessionId]` followed by dereferencing the heap:
yields the reference and the current session object, or none. -/
def lookupSession (st : SrvState) (sid : String) : Option (Nat × Session) :=
  match st.sessionsById.lookup sid with
  | none => none
  | some ref =>
    match st.heap[ref]? with
    | none => none
    | some s => some (ref, s)

/-- `fs.unlinkSync`: fails (none) when the path does not exist. -/
def unlinkFile (fp : String) (files : List String) : Option (List String) :=
  if fp ∈ files then some (files.filter (fun g => g != fp)) else none

/-- `safeDeleteFile` (server.js lines 65-69): deletes only when the path
is truthy and exists, and swallows any deletion error. -/
def safeDeleteFile (fp : String) (files : List String) : List String :=
  if fp ≠ "" ∧ fp ∈ files then (unlinkFile fp files).getD files else files

/-- MAX_USER_PAGES of the HEAD variant (server.js line 51). -/
def MAX_USER_PAGES : Int := 150

/-- SESSION_EXPIRE_MS (server.js line 52): five minutes. -/
def SESSION_EXPIRE_MS : Int := 300000

/-- The session record installed by /create-session (HEAD variant). -/
def mkSession (sid fileName filePath : String) (pages now : Int) : Session :=
  { sessionId := sid, fileName := fileName, filePath := filePath, pages := pages,
    paymentStatus := "PENDING", printStatus := "WAITING", createdAt := now,
    amount := none, copies := none, printType := none }

/-- Outcome of POST /create-session (HEAD variant). -/
inductive CreateRes where
  | maintenance
  | busyErr
  | noFile
  | unsupportedType
  | emptyDoc
  | tooManyPages
  | created (sid : String) (pages : Int)
deriving DecidableEq, Repr

/-- POST /create-session, server.js HEAD variant lines 143-268.  `pages`
is the value countPages returned (-1 for an unsupported type), `sid` the
value generateSessionId returned.  The new session object is appended to
the heap and the array, and the map entry for `sid` is written,
replacing any previous binding without any collision check. -/
def createSessionHead (st : SrvState) (hasFile : Bool)
    (fileName filePath : String) (pages : Int) (sid : String) (now : Int) :
    CreateRes × SrvState :=
  if st.machineEnabled = false then (.maintenance, st)
  else if st.printerBusy then (.busyErr, st)
  else if hasFile = false then (.noFile, st)
  else if pages = -1 then
    (.unsupportedType, { st with files := safeDeleteFile filePath st.files })
  else if pages ≤ 0 then
    (.emptyDoc, { st with files := safeDeleteFile filePath st.files })
  else if MAX_USER_PAGES < pages then
    (.tooManyPages, { st with files := safeDeleteFile filePath st.files })
  else
    (.created sid pages,
     { st with
         heap := st.heap ++ [mkSession sid fileName filePath pages now]
         sessionsArr := st.sessionsArr ++ [st.heap.length]
         sessionsById := mapInsert sid st.heap.length st.sessionsById })

/-- Outcome of POST /start-print (HEAD variant). -/
inductive StartPrintRes where
  | sessionNotFound
  | machineDisabled
  | printerBusyErr
  | paymentNotConfirmed
  | started (pages : Int)
deriving DecidableEq, Repr

/-- POST /start-print, server.js HEAD variant lines 312-373 (the timed
completion it schedules is modelled separately as completionMarkDone and
completionAppendLog).  The handler checks, in order: session existence,
machineEnabled, printerBusy, paymentStatus = "PAID" — and never
printStatus — then marks the session PRINTING and the printer busy. -/
def startPrintHead (st : SrvState) (sid : String) (copies : Int)
    (printType : String) : StartPrintRes × SrvState :=
  match lookupSession st sid with
  | none => (.sessionNotFound, st)
  | some (ref, s) =>
    if st.machineEnabled = false then (.machineDisabled, st)
    else if st.printerBusy then (.printerBusyErr, st)
    else if s.paymentStatus ≠ "PAID" then (.paymentNotConfirmed, st)
    else
      (.started s.pages,
       { st with
           printerBusy := true
           heap := st.heap.set ref
             { s with
                 printStatus := "PRINTING"
                 copies := some (imax 1 copies)
                 printType := some (if printType == "color" then "color" else "bw") } })

/-- First, synchronous half of the timed completion callback (server.js
lines 345-353): look the session up again; if gone, just free the
printer; otherwise mark it DONE and free the printer.  This runs before
the PrintLogs insert is issued. -/
def completionMarkDone (st : SrvState) (sid : String) : SrvState :=
  match lookupSession st sid with
  | none => { st with printerBusy := false }
  | some (ref, s) =>
    { st with
        printerBusy := false
        heap := st.heap.set ref { s with printStatus := "DONE" } }

/-- Second half of the timed completion callback (server.js lines
356-370): the best-effort PrintLogs insert, reading the session's
fields with their JS fallbacks (phone missing, printer "SOS"). -/
def completionAppendLog (st : SrvState) (sid : String) (timeIso : String) :
    SrvState :=
  match lookupSession st sid with
  | none => st
  | some (_, s) =>
    { st with
        printLogs := st.printLogs ++
          [{ token := sid, phone := "", printer_id := "SOS", pages := s.pages,
             print_type := s.printType.getD "bw", amount := s.amount.getD 0,
             time := timeIso }] }

/-- The whole timed completion callback: mark DONE (and free the
printer) first, then append the audit record. -/
def completionCallback (st : SrvState) (sid : String) (timeIso : String) :
    SrvState :=
  completionAppendLog (completionMarkDone st sid) sid timeIso

/-- Outcome of POST /finish-print (HEAD variant). -/
inductive FinishRes where
  | sessionNotFound
  | success
deriving DecidableEq, Repr

/-- POST /finish-print, server.js HEAD variant lines 423-452: on an
existing session, set printStatus to DONE, free the printer and
best-effort delete the file.  The session record itself is not removed. -/
def finishPrintHead (st : SrvState) (sid : String) : FinishRes × SrvState :=
  match lookupSession st sid with
  | none => (.sessionNotFound, st)
  | some (ref, s) =>
    (.success,
     { st with
         printerBusy := false
         heap := st.heap.set ref { s with printStatus := "DONE" }
         files := safeDeleteFile s.filePath st.files })

/-- `s.createdAt || now` is older than SESSION_EXPIRE_MS (server.js
lines 478-479); a zero createdAt is falsy in JS and treated as now. -/
def sessionExpired (now : Int) (s : Session) : Bool :=
  decide (SESSION_EXPIRE_MS < now - (if s.createdAt = 0 then now else s.createdAt))

/-- Whether the session behind an array reference is expired. -/
def refExpired (st : SrvState) (now : Int) (r : Nat) : Bool :=
  match st.heap[r]? with
  | some s => sessionExpired now s
  | none => false

/-- The file paths of the sessions the sweep is about to drop. -/
def expiredPaths (st : SrvState) (now : Int) : List String :=
  (st.sessionsArr.filter (fun r => refExpired st now r)).filterMap
    (fun r => (st.heap[r]?).map (fun s => s.filePath))

/-- The `keep` array the sweep builds: the sessions that are not
expired, in order. -/
def sweepKeep (st : SrvState) (now : Int) : List Nat :=
  st.sessionsArr.filter (fun r => !refExpired st now r)

/-- The file list after the sweep's in-loop deletions of every expired
session's file. -/
def sweepFiles (st : SrvState) (now : Int) : List String :=
  (expiredPaths st now).foldl (fun fs p => safeDeleteFile p fs) st.files

/-- The `newMap` the sweep rebuilds from the kept sessions. -/
def sweepMap (st : SrvState) (now : Int) : List (String × Nat) :=
  (sweepKeep st now).foldl (fun m r =>
    match st.heap[r]? with
    | some s => mapInsert s.sessionId r m
    | none => m) []

/-- The periodic cleanup sweep, server.js HEAD variant lines 470-497:
with no sessions it returns immediately; otherwise every session whose
age exceeds SESSION_EXPIRE_MS — with no printStatus check of any kind —
has its file deleted, the survivors are kept and the map is rebuilt from
them; if anything was dropped the array and map are replaced, and
printerBusy is reset when no session remains. -/
def sweep (st : SrvState) (now : Int) : SrvState :=
  if st.sessionsArr.isEmpty then st
  else if (sweepKeep st now).length = st.sessionsArr.length then
    { st with files := sweepFiles st now }
  else
    { st with
        sessionsArr := sweepKeep st now
        sessionsById := sweepMap st now
        files := sweepFiles st now
        printerBusy := if (sweepKeep st now).isEmpty then false else st.printerBusy }

/-! ### The merged (second) variant of server.js

It stores sessions directly in an object `global.sessions` keyed by id,
and its POST /start-print (lines 401-418) checks nothing but existence:
no machine flag, no busy flag, no payment status, no print status. -/

/-- Outcome of the merged variant's POST /start-print. -/
inductive MergedStartRes where
  | sessionNotFound
  | started (pages : Int)
deriving DecidableEq, Repr

/-- POST /start-print of the merged variant, server.js lines 401-418. -/
def startPrintMerged (sessions : List (String × Session)) (sid : String) :
    MergedStartRes × List (String × Session) :=
  match sessions.lookup sid with
  | none => (.sessionNotFound, sessions)
  | some s =>
    (.started s.pages,
     sessions.map (fun q =>
       if q.1 == sid then (q.1, { q.2 with printStatus := "PRINTING" }) else q))

/-- How many sessions of a merged-variant store are PRINTING. -/
def countPrinting (sessions : List (String × Session)) : Nat :=
  (sessions.filter (fun q => q.2.printStatus == "PRINTING")).length

/-! ## Server-side helper lemmas -/

/-- Overwriting the session object behind an existing reference leaves it
reachable under the same id with the new value, for any successor state
that keeps the map and sets the heap at that reference. -/
theorem lookupSession_after_set (st : SrvState) (sid : String) (ref : Nat)
    (s s' : Session) (h : lookupSession st sid = some (ref, s))
    (st' : SrvState) (hmap : st'.sessionsById = st.sessionsById)
    (hheap : st'.heap = st.heap.set ref s') :
    lookupSession st' sid = some (ref, s') := by
  rw [lookupSession] at h ⊢
  rw [hmap, hheap]
  cases hm : st.sessionsById.lookup sid with
  | none =>
    simp only [hm] at h
    exact Option.noConfusion h
  | some r =>
    simp only [hm] at h ⊢
    cases hh : st.heap[r]? with
    | none =>
      simp only [hh] at h
      exact Option.noConfusion h
    | some t =>
      simp only [hh, Option.some.injEq, Prod.mk.injEq] at h
      obtain ⟨h1, -⟩ := h
      subst h1
      have hlt : r < st.heap.length := by
        rcases List.getElem?_eq_some_iff.mp hh with ⟨hlt, -⟩
        exact hlt
      simp only [List.getElem?_set_self hlt]

/-- safeDeleteFile only ever removes entries. -/
theorem mem_safeDeleteFile {a fp : String} {fs : List String}
    (h : a ∈ safeDeleteFile fp fs) : a ∈ fs := by
  rw [safeDeleteFile] at h
  split at h
  case isTrue hc =>
    rw [unlinkFile, if_pos hc.2] at h
    simp only [Option.getD_some] at h
    exact (List.mem_filter.mp h).1
  case isFalse => exact h

/-- Deleting a nonempty path removes it from the file list. -/
theorem notMem_safeDeleteFile_self {fp : String} (hne : fp ≠ "")
    (fs : List String) : fp ∉ safeDeleteFile fp fs := by
  rw [safeDeleteFile]
  split
  case isTrue hc =>
    rw [unlinkFile, if_pos hc.2]
    simp only [Option.getD_some]
    intro hmem
    have hf := (List.mem_filter.mp hmem).2
    simp at hf
  case isFalse hc =>
    intro hmem
    exact hc ⟨hne, hmem⟩

/-- A path missing from the list is untouched by safeDeleteFile. -/
theorem safeDeleteFile_of_notMem {fp : String} {fs : List String}
    (h : fp ∉ fs) : safeDeleteFile fp fs = fs := by
  rw [safeDeleteFile, if_neg (fun hc => h hc.2)]

/-- A path absent before a chain of deletions is absent after it. -/
theorem notMem_foldl_safeDelete_of_notMem {fp : String} :
    ∀ (l : List String) (fs : List String), fp ∉ fs →
      fp ∉ l.foldl (fun acc q => safeDeleteFile q acc) fs := by
  intro l
  induction l with
  | nil => intro fs h; exact h
  | cons a l ih =>
    intro fs h
    exact ih _ (fun hmem => h (mem_safeDeleteFile hmem))

/-- A nonempty path that occurs in the deletion list is absent from the
result of the chain of deletions. -/
theorem notMem_foldl_safeDelete {fp : String} (hne : fp ≠ "") :
    ∀ (l : List String) (fs : List String), fp ∈ l →
      fp ∉ l.foldl (fun acc q => safeDeleteFile q acc) fs := by
  intro l
  induction l with
  | nil => intro fs h; cases h
  | cons a l ih =>
    intro fs hmem
    rcases List.mem_cons.mp hmem with h | h
    · subst h
      exact notMem_foldl_safeDelete_of_notMem l _
        (notMem_safeDeleteFile_self hne fs)
    · exact ih _ h

/-- /finish-print on a live session, fully evaluated. -/
theorem finishPrintHead_found {st : SrvState} {sid : String} {ref : Nat}
    {s : Session} (h : lookupSession st sid = some (ref, s)) :
    finishPrintHead st sid =
      (.success,
       { st with
           printerBusy := false
           heap := st.heap.set ref { s with printStatus := "DONE" }
           files := safeDeleteFile s.filePath st.files }) := by
  rw [finishPrintHead]
  simp only [h]

/-- /finish-print on an unknown session id. -/
theorem finishPrintHead_notFound {st : SrvState} {sid : String}
    (h : lookupSession st sid = none) :
    finishPrintHead st sid = (.sessionNotFound, st) := by
  rw [finishPrintHead]
  simp only [h]

/-! ## Concrete states used by the counterexamples and witnesses -/

/-- A paid session that is currently printing, created at t = 1000. -/
def sessPrinting : Session :=
  { sessionId := "AB", fileName := "a.pdf", filePath := "tmp1", pages := 3,
    paymentStatus := "PAID", printStatus := "PRINTING", createdAt := 1000,
    amount := some 10, copies := some 1, printType := some "bw" }

/-- A server state in mid-print: session "AB" is PRINTING, its file
exists, the printer is busy, no audit record yet. -/
def stMidPrint : SrvState :=
  { machineEnabled := true, printerBusy := true, heap := [sessPrinting],
    sessionsArr := [0], sessionsById := [("AB", 0)], files := ["tmp1"],
    printLogs := [] }

/-- A paid session whose print already finished (printStatus DONE). -/
def sessDone : Session :=
  { sessionId := "CD", fileName := "b.pdf", filePath := "tmp2", pages := 4,
    paymentStatus := "PAID", printStatus := "DONE", createdAt := 1000,
    amount := some 8, copies := some 1, printType := some "bw" }

/-- An idle server state holding only the finished session "CD". -/
def stAfterDone : SrvState :=
  { machineEnabled := true, printerBusy := false, heap := [sessDone],
    sessionsArr := [0], sessionsById := [("CD", 0)], files := ["tmp2"],
    printLogs := [] }

/-- An empty idle server state (two stray files on disk). -/
def srvInit : SrvState :=
  { machineEnabled := true, printerBusy := false, heap := [], sessionsArr := [],
    sessionsById := [], files := ["fa", "fb"], printLogs := [] }

/-- Merged variant: a session currently PRINTING. -/
def msA : Session :=
  { sessionId := "AA", fileName := "a.pdf", filePath := "f1", pages := 2,
    paymentStatus := "PAID", printStatus := "PRINTING", createdAt := 0,
    amount := none, copies := none, printType := none }

/-- Merged variant: a second session, not even paid. -/
def msB : Session :=
  { sessionId := "BB", fileName := "b.pdf", filePath := "f2", pages := 6,
    paymentStatus := "PENDING", printStatus := "WAITING", createdAt := 0,
    amount := none, copies := none, printType := none }

/-- Merged-variant session store with one job printing. -/
def mergedStore : List (String × Session) := [("AA", msA), ("BB", msB)]

/-- First create on the empty server: session "ZZ11" with 3 pages. -/
def stOneSession : SrvState :=
  (createSessionHead srvInit true "a.pdf" "fa" 3 "ZZ11" 100).2

/-! ## Claims C4 through C9: the session state machine -/

/-- Claim C4, counterexample: the sweep does reap a PRINTING session.
Session "AB" is PRINTING and 300001 ms old at now = 301001 (ttl is
300000 ms); the sweep removes it from the array and the map and deletes
its file. -/
theorem C4_counterexample :
    sessPrinting.printStatus = "PRINTING" ∧
    lookupSession stMidPrint "AB" = some (0, sessPrinting) ∧
    (sweep stMidPrint 301001).sessionsArr = [] ∧
    lookupSession (sweep stMidPrint 301001) "AB" = none ∧
    (sweep stMidPrint 301001).files = [] := by decide

/-- Claim C4 (amended): the expiry sweep removes exactly the sessions
older than the ttl, with no printStatus check of any kind — a PRINTING
session older than the ttl is removed like any other and its file is
deleted.  Concretely: the surviving array is the filter of the
non-expired references, any expired reference is gone, and the expired
session's (nonempty) file path is deleted. -/
theorem C4_sweep_reaps_by_age_only (st : SrvState) (now : Int) (r : Nat)
    (s : Session) (hr : r ∈ st.sessionsArr) (he : refExpired st now r = true)
    (hs : st.heap[r]? = some s) (hfp : s.filePath ≠ "") :
    (sweep st now).sessionsArr = sweepKeep st now ∧
    r ∉ (sweep st now).sessionsArr ∧
    s.filePath ∉ (sweep st now).files := by
  have hie : st.sessionsArr.isEmpty = false := by
    cases hl : st.sessionsArr with
    | nil => rw [hl] at hr; cases hr
    | cons a l => rfl
  have hmemPath : s.filePath ∈ expiredPaths st now := by
    rw [expiredPaths]
    refine List.mem_filterMap.mpr ⟨r, List.mem_filter.mpr ⟨hr, he⟩, ?_⟩
    rw [hs]
    rfl
  have hfiles : s.filePath ∉ sweepFiles st now :=
    notMem_foldl_safeDelete hfp _ _ hmemPath
  have hnotkeep : r ∉ sweepKeep st now := by
    intro hmem
    have h2 := (List.mem_filter.mp hmem).2
    rw [he] at h2
    simp at h2
  rw [sweep, if_neg (by rw [hie]; simp)]
  by_cases hlen : (sweepKeep st now).length = st.sessionsArr.length
  · rw [if_pos hlen]
    have harr : sweepKeep st now = st.sessionsArr :=
      (List.filter_sublist _).eq_of_length hlen
    exact ⟨harr.symm, by rw [← harr] at hr ⊢; exact hnotkeep, hfiles⟩
  · rw [if_neg hlen]
    exact ⟨rfl, hnotkeep, hfiles⟩

/-- Claim C4 witness: the amended theorem evaluated on the mid-print
state at now = 301001. -/
theorem C4_sweep_reaps_by_age_only_witness :
    (sweep stMidPrint 301001).sessionsArr = sweepKeep stMidPrint 301001 ∧
    0 ∉ (sweep stMidPrint 301001).sessionsArr ∧
    sessPrinting.filePath ∉ (sweep stMidPrint 301001).files :=
  C4_sweep_reaps_by_age_only stMidPrint 301001 0 sessPrinting
    (by decide) (by decide) (by decide) (by decide)

/-- Claim C5, counterexample: /start-print has no printStatus guard.
Session "CD" is PAID but already DONE (printStatus ≠ WAITING), the
machine is enabled and the printer idle; the claim demands a
PreconditionFailed, yet the request succeeds and the session is marked
PRINTING a second time. -/
theorem C5_counterexample :
    sessDone.paymentStatus = "PAID" ∧
    sessDone.printStatus = "DONE" ∧
    stAfterDone.machineEnabled = true ∧
    stAfterDone.printerBusy = false ∧
    (startPrintHead stAfterDone "CD" 1 "bw").1 = .started 4 ∧
    (lookupSession (startPrintHead stAfterDone "CD" 1 "bw").2 "CD").map
      (fun q => q.2.printStatus) = some "PRINTING" := by decide

/-- Claim C5 (amended): in the HEAD variant, /start-print on a known
session fails when the machine is disabled, when the printer is busy, or
when payment_status ≠ PAID, each time leaving the state unchanged; on an
unknown id it fails with NotFound.  It checks print_status nowhere, so
whenever the machine is enabled, the printer idle and the session PAID
it succeeds — even for a DONE or PRINTING session — and sets
print_status = PRINTING and the printer busy. -/
theorem C5_begin_print_guards (st st0 : SrvState) (sid : String)
    (copies : Int) (pt : String) (ref : Nat) (s : Session)
    (h : lookupSession st sid = some (ref, s))
    (h0 : lookupSession st0 sid = none) :
    (st.machineEnabled = false →
      startPrintHead st sid copies pt = (.machineDisabled, st)) ∧
    (st.machineEnabled = true → st.printerBusy = true →
      startPrintHead st sid copies pt = (.printerBusyErr, st)) ∧
    (st.machineEnabled = true → st.printerBusy = false →
      s.paymentStatus ≠ "PAID" →
      startPrintHead st sid copies pt = (.paymentNotConfirmed, st)) ∧
    (st.machineEnabled = true → st.printerBusy = false →
      s.paymentStatus = "PAID" →
      (startPrintHead st sid copies pt).1 = .started s.pages ∧
      (lookupSession (startPrintHead st sid copies pt).2 sid).map
        (fun q => q.2.printStatus) = some "PRINTING" ∧
      (startPrintHead st sid copies pt).2.printerBusy = true) ∧
    startPrintHead st0 sid copies pt = (.sessionNotFound, st0) := by
  refine ⟨?_, ?_, ?_, ?_, ?_⟩
  · intro hme
    rw [startPrintHead]
    simp only [h]
    rw [if_pos hme]
  · intro hme hb
    rw [startPrintHead]
    simp only [h]
    rw [if_neg (by rw [hme]; simp), if_pos hb]
  · intro hme hb hpay
    rw [startPrintHead]
    simp only [h]
    rw [if_neg (by rw [hme]; simp), if_neg (by rw [hb]; simp), if_pos hpay]
  · intro hme hb hpay
    have hrun : startPrintHead st sid copies pt =
        (.started s.pages,
         { st with
             printerBusy := true
             heap := st.heap.set ref
               { s with
                   printStatus := "PRINTING"
                   copies := some (imax 1 copies)
                   printType := some (if pt == "color" then "color" else "bw") } }) := by
      rw [startPrintHead]
      simp only [h]
      rw [if_neg (by rw [hme]; simp), if_neg (by rw [hb]; simp),
          if_neg (not_not_intro hpay)]
    have hlk : lookupSession
        { st with
            printerBusy := true
            heap := st.heap.set ref
              { s with
                  printStatus := "PRINTING"
                  copies := some (imax 1 copies)
                  printType := some (if pt == "color" then "color" else "bw") } }
        sid =
        some (ref,
          { s with
              printStatus := "PRINTING"
              copies := some (imax 1 copies)
              printType := some (if pt == "color" then "color" else "bw") }) :=
      lookupSession_after_set st sid ref s _ h _ rfl rfl
    refine ⟨by rw [hrun], ?_, by rw [hrun]⟩
    rw [hrun]
    dsimp only
    rw [hlk]
    rfl
  · rw [startPrintHead]
    simp only [h0]

/-- Claim C5 witness: the amended theorem evaluated on the idle state
holding the PAID finished session "CD" and on the empty state. -/
theorem C5_begin_print_guards_witness :
    (stAfterDone.machineEnabled = false →
      startPrintHead stAfterDone "CD" 1 "bw" = (.machineDisabled, stAfterDone)) ∧
    (stAfterDone.machineEnabled = true → stAfterDone.printerBusy = true →
      startPrintHead stAfterDone "CD" 1 "bw" = (.printerBusyErr, stAfterDone)) ∧
    (stAfterDone.machineEnabled = true → stAfterDone.printerBusy = false →
      sessDone.paymentStatus ≠ "PAID" →
      startPrintHead stAfterDone "CD" 1 "bw" = (.paymentNotConfirmed, stAfterDone)) ∧
    (stAfterDone.machineEnabled = true → stAfterDone.printerBusy = false →
      sessDone.paymentStatus = "PAID" →
      (startPrintHead stAfterDone "CD" 1 "bw").1 = .started sessDone.pages ∧
      (lookupSession (startPrintHead stAfterDone "CD" 1 "bw").2 "CD").map
        (fun q => q.2.printStatus) = some "PRINTING" ∧
      (startPrintHead stAfterDone "CD" 1 "bw").2.printerBusy = true) ∧
    startPrintHead srvInit "CD" 1 "bw" = (.sessionNotFound, srvInit) :=
  C5_begin_print_guards stAfterDone srvInit "CD" 1 "bw" 0 sessDone
    (by decide) (by decide)

/-- Claim C6, counterexample: the merged variant of /start-print has no
busy gate at all.  With session "AA" PRINTING (one job active), a
start-print request for the unpaid, waiting session "BB" succeeds
instead of failing printer-busy, leaving two sessions PRINTING at
once. -/
theorem C6_counterexample :
    msA.printStatus = "PRINTING" ∧
    countPrinting mergedStore = 1 ∧
    (startPrintMerged mergedStore "BB").1 = .started 6 ∧
    countPrinting (startPrintMerged mergedStore "BB").2 = 2 := by decide

/-- Claim C6 (amended): only the HEAD variant has an admission gate:
while printerBusy is true, every /start-print request leaves the state
completely unchanged (so no session transitions to PRINTING) and fails
with the busy error when the machine is enabled and the session exists
(NotFound or maintenance otherwise).  The merged variant has no such
gate, see the counterexample. -/
theorem C6_busy_gate_head (st : SrvState) (sid : String) (copies : Int)
    (pt : String) (hb : st.printerBusy = true) :
    (startPrintHead st sid copies pt).2 = st ∧
    ((startPrintHead st sid copies pt).1 = .sessionNotFound ∨
     (startPrintHead st sid copies pt).1 = .machineDisabled ∨
     (startPrintHead st sid copies pt).1 = .printerBusyErr) := by
  cases hl : lookupSession st sid with
  | none =>
    have hrun : startPrintHead st sid copies pt = (.sessionNotFound, st) := by
      rw [startPrintHead]
      simp only [hl]
    rw [hrun]
    exact ⟨rfl, .inl rfl⟩
  | some q =>
    obtain ⟨ref, s⟩ := q
    by_cases hme : st.machineEnabled = false
    · have hrun : startPrintHead st sid copies pt = (.machineDisabled, st) := by
        rw [startPrintHead]
        simp only [hl]
        rw [if_pos hme]
      rw [hrun]
      exact ⟨rfl, .inr (.inl rfl)⟩
    · have hrun : startPrintHead st sid copies pt = (.printerBusyErr, st) := by
        rw [startPrintHead]
        simp only [hl]
        rw [if_neg hme, if_pos hb]
      rw [hrun]
      exact ⟨rfl, .inr (.inr rfl)⟩

/-- Claim C6 witness: the HEAD gate evaluated on the busy mid-print
state: a start-print for the very session that is printing is refused
and changes nothing. -/
theorem C6_busy_gate_head_witness :
    (startPrintHead stMidPrint "AB" 1 "bw").2 = stMidPrint ∧
    ((startPrintHead stMidPrint "AB" 1 "bw").1 = .sessionNotFound ∨
     (startPrintHead stMidPrint "AB" 1 "bw").1 = .machineDisabled ∨
     (startPrintHead stMidPrint "AB" 1 "bw").1 = .printerBusyErr) :=
  C6_busy_gate_head stMidPrint "AB" 1 "bw" (by decide)

/-- Claim C7, counterexample: the completion callback marks the session
DONE (and frees the printer) in its synchronous half, before the
PrintLogs insert is issued.  After that half runs on the mid-print
state, session "AB" reads DONE while the audit log is still empty — an
observable DONE-without-audit state. -/
theorem C7_counterexample :
    (lookupSession stMidPrint "AB").map (fun q => q.2.printStatus) =
      some "PRINTING" ∧
    stMidPrint.printLogs = [] ∧
    (lookupSession (completionMarkDone stMidPrint "AB") "AB").map
      (fun q => q.2.printStatus) = some "DONE" ∧
    (completionMarkDone stMidPrint "AB").printLogs = [] := by decide

/-- Claim C7 (amended): the timed completion is the composition of a
mark-DONE step followed by an audit-append step, in that order: after
the first step the session reads DONE, the printer is freed, and the
audit log is still exactly what it was; the appended record (carrying
the session's page count) only arrives with the second step. -/
theorem C7_done_then_audit (st : SrvState) (sid timeIso : String)
    (ref : Nat) (s : Session) (h : lookupSession st sid = some (ref, s)) :
    completionCallback st sid timeIso =
      completionAppendLog (completionMarkDone st sid) sid timeIso ∧
    (lookupSession (completionMarkDone st sid) sid).map
      (fun q => q.2.printStatus) = some "DONE" ∧
    (completionMarkDone st sid).printLogs = st.printLogs ∧
    (completionMarkDone st sid).printerBusy = false ∧
    (completionCallback st sid timeIso).printLogs =
      st.printLogs ++
        [{ token := sid, phone := "", printer_id := "SOS", pages := s.pages,
           print_type := s.printType.getD "bw", amount := s.amount.getD 0,
           time := timeIso }] := by
  have hmark : completionMarkDone st sid =
      { st with
          printerBusy := false
          heap := st.heap.set ref { s with printStatus := "DONE" } } := by
    rw [completionMarkDone]
    simp only [h]
  have hlk : lookupSession (completionMarkDone st sid) sid =
      some (ref, { s with printStatus := "DONE" }) := by
    rw [hmark]
    exact lookupSession_after_set st sid ref s _ h _ rfl rfl
  refine ⟨rfl, by rw [hlk]; rfl, by rw [hmark], by rw [hmark], ?_⟩
  rw [completionCallback, completionAppendLog]
  simp only [hlk]
  rw [hmark]

/-- Claim C7 witness: the amended theorem evaluated on the mid-print
state. -/
theorem C7_done_then_audit_witness :
    completionCallback stMidPrint "AB" "T0" =
      completionAppendLog (completionMarkDone stMidPrint "AB") "AB" "T0" ∧
    (lookupSession (completionMarkDone stMidPrint "AB") "AB").map
      (fun q => q.2.printStatus) = some "DONE" ∧
    (completionMarkDone stMidPrint "AB").printLogs = stMidPrint.printLogs ∧
    (completionMarkDone stMidPrint "AB").printerBusy = false ∧
    (completionCallback stMidPrint "AB" "T0").printLogs =
      stMidPrint.printLogs ++
        [{ token := "AB", phone := "", printer_id := "SOS",
           pages := sessPrinting.pages,
           print_type := sessPrinting.printType.getD "bw",
           amount := sessPrinting.amount.getD 0, time := "T0" }] :=
  C7_done_then_audit stMidPrint "AB" "T0" 0 sessPrinting (by decide)

/-- Claim C8: /finish-print on a live session answers success, marks it
DONE and deletes its (nonempty-path) file; an immediate second call on
the same id is safe — it answers success again, deletes nothing further
and surfaces no deletion error (safeDeleteFile guards on existence and
swallows failures) — and once the session record has been removed the
call answers NotFound and changes nothing. -/
theorem C8_finish_idempotent (st st0 : SrvState) (sid : String) (ref : Nat)
    (s : Session) (h : lookupSession st sid = some (ref, s))
    (hfp : s.filePath ≠ "") (h0 : lookupSession st0 sid = none) :
    (finishPrintHead st sid).1 = .success ∧
    (lookupSession (finishPrintHead st sid).2 sid).map
      (fun q => q.2.printStatus) = some "DONE" ∧
    s.filePath ∉ (finishPrintHead st sid).2.files ∧
    (finishPrintHead (finishPrintHead st sid).2 sid).1 = .success ∧
    (finishPrintHead (finishPrintHead st sid).2 sid).2.files =
      (finishPrintHead st sid).2.files ∧
    finishPrintHead st0 sid = (.sessionNotFound, st0) := by
  have hnot : s.filePath ∉ safeDeleteFile s.filePath st.files :=
    notMem_safeDeleteFile_self hfp _
  rw [finishPrintHead_found h]
  dsimp only
  have hlk1 : lookupSession
      { st with
          printerBusy := false
          heap := st.heap.set ref { s with printStatus := "DONE" }
          files := safeDeleteFile s.filePath st.files } sid =
      some (ref, { s with printStatus := "DONE" }) :=
    lookupSession_after_set st sid ref s _ h _ rfl rfl
  rw [finishPrintHead_found hlk1]
  dsimp only
  refine ⟨rfl, by rw [hlk1]; rfl, hnot, rfl, ?_, finishPrintHead_notFound h0⟩
  exact safeDeleteFile_of_notMem hnot

/-- Claim C8 witness: the theorem evaluated on the state holding session
"CD" and on the empty state. -/
theorem C8_finish_idempotent_witness :
    (finishPrintHead stAfterDone "CD").1 = .success ∧
    (lookupSession (finishPrintHead stAfterDone "CD").2 "CD").map
      (fun q => q.2.printStatus) = some "DONE" ∧
    sessDone.filePath ∉ (finishPrintHead stAfterDone "CD").2.files ∧
    (finishPrintHead (finishPrintHead stAfterDone "CD").2 "CD").1 = .success ∧
    (finishPrintHead (finishPrintHead stAfterDone "CD").2 "CD").2.files =
      (finishPrintHead stAfterDone "CD").2.files ∧
    finishPrintHead srvInit "CD" = (.sessionNotFound, srvInit) :=
  C8_finish_idempotent stAfterDone srvInit "CD" 0 sessDone
    (by decide) (by decide) (by decide)

/-- Claim C9, counterexample: /create-session never regenerates a
colliding id.  After "ZZ11" names a live 3-page session, a second create
handed the same generated id succeeds and the map entry for "ZZ11" now
yields the new 7-page session: the old record was silently overwritten,
not protected by regeneration. -/
theorem C9_counterexample :
    (lookupSession stOneSession "ZZ11").map (fun q => q.2.pages) = some 3 ∧
    (createSessionHead stOneSession true "b.pdf" "fb" 7 "ZZ11" 200).1 =
      .created "ZZ11" 7 ∧
    (lookupSession
      (createSessionHead stOneSession true "b.pdf" "fb" 7 "ZZ11" 200).2
      "ZZ11").map (fun q => q.2.pages) = some 7 ∧
    ((createSessionHead stOneSession true "b.pdf" "fb" 7 "ZZ11" 200).2).sessionsArr.length
      = 2 := by decide

/-- Claim C9 (amended): /create-session (guards passing: machine on,
printer idle, a file present, 0 < pages ≤ 150) always installs the new
session under the freshly generated id with no collision check: the map
entry for that id is overwritten to the new record even when the id
already named a live session, and the array grows by one, retaining the
old record. -/
theorem C9_create_overwrites (st : SrvState) (fileName filePath sid : String)
    (pages now : Int) (he : st.machineEnabled = true)
    (hb : st.printerBusy = false) (hp1 : 0 < pages)
    (hp2 : pages ≤ MAX_USER_PAGES) :
    (createSessionHead st true fileName filePath pages sid now).1 =
      .created sid pages ∧
    lookupSession (createSessionHead st true fileName filePath pages sid now).2
      sid = some (st.heap.length, mkSession sid fileName filePath pages now) ∧
    (createSessionHead st true fileName filePath pages sid now).2.sessionsArr =
      st.sessionsArr ++ [st.heap.length] := by
  rw [MAX_USER_PAGES] at hp2
  have hrun : createSessionHead st true fileName filePath pages sid now =
      (.created sid pages,
       { st with
           heap := st.heap ++ [mkSession sid fileName filePath pages now]
           sessionsArr := st.sessionsArr ++ [st.heap.length]
           sessionsById := mapInsert sid st.heap.length st.sessionsById }) := by
    rw [createSessionHead]
    rw [if_neg (by rw [he]; simp), if_neg (by rw [hb]; simp),
        if_neg (by simp), if_neg (by omega), if_neg (by omega),
        if_neg (by rw [MAX_USER_PAGES]; omega)]
  rw [hrun]
  refine ⟨rfl, ?_, rfl⟩
  rw [lookupSession]
  simp only [mapInsert, List.lookup, beq_self_eq_true,
    List.getElem?_concat_length]

/-- Claim C9 witness: the amended theorem evaluated on the empty server
and the generated id "ZZ11". -/
theorem C9_create_overwrites_witness :
    (createSessionHead srvInit true "a.pdf" "fa" 3 "ZZ11" 100).1 =
      .created "ZZ11" 3 ∧
    lookupSession (createSessionHead srvInit true "a.pdf" "fa" 3 "ZZ11" 100).2
      "ZZ11" = some (srvInit.heap.length, mkSession "ZZ11" "a.pdf" "fa" 3 100) ∧
    (createSessionHead srvInit true "a.pdf" "fa" 3 "ZZ11" 100).2.sessionsArr =
      srvInit.sessionsArr ++ [srvInit.heap.length] :=
  C9_create_overwrites srvInit "a.pdf" "fa" "ZZ11" 3 100
    (by decide) (by decide) (by decide) (by decide)

end PayToPrint
